import Mathlib

/-!
Shallow embedding of `src/app.py` (a Streamlit speech-to-speech translator).

External managed services (pydub decoding, Google Speech, Translate,
Text-to-Speech, Cloud Storage) are modelled as oracle functions bundled in a
`Services` record; a fallible call returns `Except String α`, the `String`
being the Python exception text.  A run of the request handler produces a
trace of `Event`s (user-visible messages and outgoing service calls, in
order) together with its return value, so properties about which calls are
made, with which arguments, can be stated about the trace.

Python byte strings are `List Nat`; `int(time.time())` is the `now` field of
`Services`.  `duration_seconds = len(audio_segment) / 1000.0` is modelled
over `ℚ`: `len` of a pydub segment is an integer number of milliseconds, and
for every integer `len`, the float comparison `len / 1000.0 < 60` agrees
with the exact rational comparison (60 is exactly representable and the
quotient's rounding error is far below the gap), so the rational model is
faithful to the float branch condition.
-/

namespace TamilTranslator

abbrev Bytes := List Nat

/-- A pydub `AudioSegment`: channel count, frame rate, and length in
milliseconds (`len(audio_segment)` is milliseconds). -/
structure AudioSegment where
  channels : Nat
  frameRate : Nat
  lengthMs : Nat
  deriving Repr, DecidableEq

/-- `audio_segment.set_channels(c)` -/
def AudioSegment.set_channels (s : AudioSegment) (c : Nat) : AudioSegment :=
  { s with channels := c }

/-- `audio_segment.set_frame_rate(r)` -/
def AudioSegment.set_frame_rate (s : AudioSegment) (r : Nat) : AudioSegment :=
  { s with frameRate := r }

/-- One alternative inside a speech recognition result segment. -/
structure SpeechRecognitionAlternative where
  transcript : String
  deriving Repr, DecidableEq

/-- One result segment of a recognition response (`response.results[i]`). -/
structure SpeechRecognitionResult where
  alternatives : List SpeechRecognitionAlternative
  deriving Repr, DecidableEq

/-- A recognition response (either from `recognize` or from the completed
long-running operation). -/
structure RecognizeResponse where
  results : List SpeechRecognitionResult
  deriving Repr, DecidableEq

inductive AudioEncoding where
  | LINEAR16
  deriving Repr, DecidableEq

/-- `speech.RecognitionConfig`.  `enable_automatic_punctuation` defaults to
`false` (proto3 default for an unset bool field), which is what the short
path's config carries since the source does not pass the keyword there. -/
structure RecognitionConfig where
  encoding : AudioEncoding
  sample_rate_hertz : Nat
  language_code : String
  enable_automatic_punctuation : Bool := false
  deriving Repr, DecidableEq

/-- `speech.RecognitionAudio`: inline `content=` bytes or a `uri=`. -/
inductive RecognitionAudio where
  | content (bytes : Bytes)
  | uri (u : String)
  deriving Repr, DecidableEq

inductive SsmlVoiceGender where
  | NEUTRAL
  deriving Repr, DecidableEq

inductive TtsAudioEncoding where
  | MP3
  deriving Repr, DecidableEq

structure SynthesisInput where
  text : String
  deriving Repr, DecidableEq

structure VoiceSelectionParams where
  language_code : String
  ssml_gender : SsmlVoiceGender
  deriving Repr, DecidableEq

structure TtsAudioConfig where
  audio_encoding : TtsAudioEncoding
  deriving Repr, DecidableEq

structure SynthesizeSpeechResponse where
  audio_content : Bytes
  deriving Repr, DecidableEq

/-- Observable events of one request, in program order: Streamlit messages
(`st.write` / `st.info` / `st.warning` / `st.error`) and outgoing service
calls with their arguments.  Every call event carries the explicit timeout
passed for that call (`none` when the source passes no timeout).  The
duration info message carries the computed duration value (the source
renders it with two decimals; the rendering is irrelevant to every claim, so
the event carries the value itself). -/
inductive Event where
  | write (msg : String)
  | info (msg : String)
  | infoDuration (durationSeconds : ℚ)
  | warning (msg : String)
  | errorMsg (msg : String)
  | uploadCall (bucket : String) (blobName : String) (content : Bytes)
      (timeout : Option Nat)
  | recognizeCall (config : RecognitionConfig) (audio : RecognitionAudio)
      (timeout : Option Nat)
  | longRunningRecognizeCall (config : RecognitionConfig)
      (audio : RecognitionAudio) (timeout : Option Nat)
  | operationResultCall (timeout : Option Nat)
  | translateCall (text : String) (targetLanguage : Option String)
      (sourceLanguage : Option String) (timeout : Option Nat)
  | synthesizeCall (input : SynthesisInput) (voice : VoiceSelectionParams)
      (audioConfig : TtsAudioConfig) (timeout : Option Nat)
  deriving Repr, DecidableEq

/-- The handle returned by `long_running_recognize`; `.result t` is
`operation.result(timeout=t)`. -/
structure LongRunningOperation where
  result : Nat → Except String RecognizeResponse

/-- Oracles for the external services, plus the value of
`int(time.time())` read on the long path.  `translate` takes the text, the
`target_language` keyword and the `source_language` keyword (the v2 client's
signature defaults both to `None`); it returns the `translatedText` field of
the response. -/
structure Services where
  from_file : Bytes → Except String AudioSegment
  export_wav : AudioSegment → String → Bytes
  gcs_upload : String → String → Bytes → Except String Unit
  recognize : RecognitionConfig → RecognitionAudio →
      Except String RecognizeResponse
  long_running_recognize : RecognitionConfig → RecognitionAudio →
      Except String LongRunningOperation
  translate : String → Option String → Option String → Except String String
  synthesize_speech : SynthesisInput → VoiceSelectionParams → TtsAudioConfig →
      Except String SynthesizeSpeechResponse
  now : Nat

/-! ### Credential loading (`load_gcp_credentials`, lines 16-30) -/

/-- The startup environment: the Streamlit secrets mapping and the set of
existing local files (`os.path.exists`). -/
structure Env where
  secrets : List (String × String)
  files : List String

inductive Credentials where
  | from_service_account_info (info : String)
  | from_service_account_file (path : String) (scopes : List String)
  deriving Repr, DecidableEq

/-- Outcome of `load_gcp_credentials`: either credentials, or
`st.error(...)` followed by `st.stop()` (which halts the script). -/
inductive LoadCredsResult where
  | ok (creds : Credentials)
  | stopped (errText : String)
  deriving Repr, DecidableEq

def credentials_missing_message : String :=
  "GCP credentials not found. Please set them up in Streamlit Secrets or add a gcp-key.json file."

def load_gcp_credentials (env : Env) : LoadCredsResult :=
  match env.secrets.lookup "gcp_credentials" with
  | some creds_json => .ok (.from_service_account_info creds_json)
  | none =>
    if "gcp-key.json" ∈ env.files then
      .ok (.from_service_account_file "gcp-key.json"
        ["https://www.googleapis.com/auth/cloud-platform"])
    else
      .stopped credentials_missing_message

/-- Startup (lines 33-42): clients are initialized, and requests can be
served, only when `load_gcp_credentials` returns credentials; `st.stop()`
halts the script before any UI is rendered. -/
def app_startup (env : Env) : Option Credentials :=
  match load_gcp_credentials env with
  | .ok creds => some creds
  | .stopped _ => none

/-! ### Storage staging (`upload_to_gcs`, lines 45-49) -/

def BUCKET_NAME : String := "bucket-for-translator-462605"

def upload_to_gcs (svc : Services) (audio_content : Bytes)
    (destination_blob_name : String) : List Event × Except String String :=
  ([.uploadCall BUCKET_NAME destination_blob_name audio_content none],
   match svc.gcs_upload BUCKET_NAME destination_blob_name audio_content with
   | .error e => .error e
   | .ok _ => .ok ("gs://" ++ BUCKET_NAME ++ "/" ++ destination_blob_name))

/-! ### Python decimal rendering of a nonnegative int (for the f-string
`f"audio-uploads/temp-{int(time.time())}.wav"`).  `str` of a nonnegative
Python int is its base-10 digit string. -/

/-- Base-10 digits, least significant first. -/
def digitsRev (n : Nat) : List Nat :=
  if _ : n < 10 then [n] else (n % 10) :: digitsRev (n / 10)
  decreasing_by exact Nat.div_lt_self (by omega) (by omega)

def digitChar (d : Nat) : Char := Char.ofNat (48 + d)

/-- `str(n)` for a nonnegative Python int. -/
def pyStrNat (n : Nat) : String := ⟨((digitsRev n).reverse.map digitChar)⟩

/-- The blob name built on the long path at Unix time `t`:
`f"audio-uploads/temp-{int(time.time())}.wav"`. -/
def blob_name_at (t : Nat) : String :=
  "audio-uploads/temp-" ++ pyStrNat t ++ ".wav"

/-! ### The request handler (`process_and_translate`, lines 51-94) -/

/-- `None, None, None` is `none`; a successful triple
(transcript, translated text, synthesized audio bytes) is `some`. -/
abbrev ProcessResult := Option (String × String × Bytes)

/-- The duration the source computes on line 61:
`len(audio_segment) / 1000.0`. -/
def duration_seconds_of (seg : AudioSegment) : ℚ := (seg.lengthMs : ℚ) / 1000

/-- Line 56: `audio_segment.set_channels(1).set_frame_rate(16000)`. -/
def normalize_segment (seg : AudioSegment) : AudioSegment :=
  (seg.set_channels 1).set_frame_rate 16000

/-- The short-path `RecognitionConfig` (line 67): no
`enable_automatic_punctuation` keyword is passed, so it stays `false`. -/
def short_config (source_lang_code : String) : RecognitionConfig :=
  { encoding := .LINEAR16, sample_rate_hertz := 16000,
    language_code := source_lang_code }

/-- The long-path `RecognitionConfig` (line 73), with
`enable_automatic_punctuation=True`. -/
def long_config (source_lang_code : String) : RecognitionConfig :=
  { encoding := .LINEAR16, sample_rate_hertz := 16000,
    language_code := source_lang_code, enable_automatic_punctuation := true }

/-- Line 77: `"".join(result.alternatives[0].transcript for result in
response.results)`.  Python's `alternatives[0]` raises `IndexError` on an
empty list; the generator is consumed in order, so the first result segment
with no alternatives raises, which `mapM` over `Option` mirrors by
short-circuiting. -/
def transcript_of_response (response : RecognizeResponse) :
    Except String String :=
  match response.results.mapM (fun r => r.alternatives.head?) with
  | none => .error "list index out of range"
  | some alts => .ok (String.join (alts.map (fun a => a.transcript)))

/-- Lines 77-91: join the transcript, short-circuit on an empty transcript
with a warning, otherwise call translation then synthesis.  Returns the
events this stage emits and the outcome. -/
def translate_and_synthesize (svc : Services) (response : RecognizeResponse) :
    List Event × Except String ProcessResult :=
  match transcript_of_response response with
  | .error e => ([], .error e)
  | .ok transcript =>
    if transcript = "" then
      ([.warning "Could not recognize speech. Please try again."], .ok none)
    else
      let ev1 : List Event :=
        [.write "3. Translating and synthesizing speech...",
         .translateCall transcript (some "ta") none none]
      match svc.translate transcript (some "ta") none with
      | .error e => (ev1, .error e)
      | .ok translated_text =>
        let synthesis_input : SynthesisInput := { text := translated_text }
        let voice_params : VoiceSelectionParams :=
          { language_code := "ta-IN", ssml_gender := .NEUTRAL }
        let audio_config : TtsAudioConfig := { audio_encoding := .MP3 }
        let ev2 := ev1 ++
          [.synthesizeCall synthesis_input voice_params audio_config none]
        match svc.synthesize_speech synthesis_input voice_params audio_config with
        | .error e => (ev2, .error e)
        | .ok tts_response =>
          (ev2, .ok (some (transcript, translated_text,
            tts_response.audio_content)))

/-- The `try` body of `process_and_translate` (lines 53-91): every raised
exception propagates as `.error`, with the events emitted before the raise. -/
def process_body (svc : Services) (audio_bytes : Bytes)
    (source_lang_code : String) : List Event × Except String ProcessResult :=
  let ev0 : List Event := [.write "1. Processing audio..."]
  match svc.from_file audio_bytes with
  | .error e => (ev0, .error e)
  | .ok seg =>
    let audio_segment := normalize_segment seg
    let processed_audio_content := svc.export_wav audio_segment "wav"
    let duration_seconds := duration_seconds_of audio_segment
    let ev1 := ev0 ++
      [.infoDuration duration_seconds, .write "2. Transcribing audio..."]
    if duration_seconds < 60 then
      let audio := RecognitionAudio.content processed_audio_content
      let config := short_config source_lang_code
      let ev2 := ev1 ++ [.recognizeCall config audio none]
      match svc.recognize config audio with
      | .error e => (ev2, .error e)
      | .ok response =>
        (ev2 ++ (translate_and_synthesize svc response).1,
         (translate_and_synthesize svc response).2)
    else
      let ev2 := ev1 ++ [.info "Long audio detected. Uploading to Cloud Storage..."]
      let staged := upload_to_gcs svc processed_audio_content
        (blob_name_at svc.now)
      let ev3 := ev2 ++ staged.1
      match staged.2 with
      | .error e => (ev3, .error e)
      | .ok gcs_uri =>
        let audio := RecognitionAudio.uri gcs_uri
        let config := long_config source_lang_code
        let ev4 := ev3 ++ [.longRunningRecognizeCall config audio none]
        match svc.long_running_recognize config audio with
        | .error e => (ev4, .error e)
        | .ok operation =>
          let ev5 := ev4 ++ [.operationResultCall (some 900)]
          match operation.result 900 with
          | .error e => (ev5, .error e)
          | .ok response =>
            (ev5 ++ (translate_and_synthesize svc response).1,
             (translate_and_synthesize svc response).2)

/-- `process_and_translate` (lines 51-94): the broad `except Exception`
shows `st.error(f"An error occurred during processing: {e}")` and returns
`None, None, None`. -/
def process_and_translate (svc : Services) (audio_bytes : Bytes)
    (source_lang_code : String) : List Event × ProcessResult :=
  match process_body svc audio_bytes source_lang_code with
  | (ev, .ok r) => (ev, r)
  | (ev, .error e) =>
    (ev ++ [.errorMsg ("An error occurred during processing: " ++ e)], none)

/-! ### The UI glue (lines 96-121) -/

/-- Line 101: the two selectable source languages and their locale codes. -/
def input_lang_options : List (String × String) :=
  [("English", "en-US"), ("Hindi", "hi-IN")]

/-- Lines 115-121: results are rendered only when `translated_audio` is
truthy, i.e. not `None` and not the empty byte string; otherwise nothing is
shown. -/
def render_results (r : ProcessResult) : ProcessResult :=
  match r with
  | some (original_text, translated_text, translated_audio) =>
    if translated_audio.isEmpty then none
    else some (original_text, translated_text, translated_audio)
  | none => none

/-! ### Event classifiers used by the claims -/

def timeout_of : Event → Option Nat
  | .uploadCall _ _ _ t => t
  | .recognizeCall _ _ t => t
  | .longRunningRecognizeCall _ _ t => t
  | .operationResultCall t => t
  | .translateCall _ _ _ t => t
  | .synthesizeCall _ _ _ t => t
  | _ => none

def is_recognize_call : Event → Bool
  | .recognizeCall _ _ _ => true
  | _ => false

/-- An event that can only be produced by the long (storage-staged) branch. -/
def is_long_path_event : Event → Bool
  | .uploadCall _ _ _ _ => true
  | .longRunningRecognizeCall _ _ _ => true
  | .operationResultCall _ => true
  | _ => false

def is_translate_call : Event → Bool
  | .translateCall _ _ _ _ => true
  | _ => false

def is_synthesize_call : Event → Bool
  | .synthesizeCall _ _ _ _ => true
  | _ => false

def is_op_result_call : Event → Bool
  | .operationResultCall _ => true
  | _ => false

/-- Spec-side restatement of the concatenation property (C4): the first
alternative's transcript of each result segment, in order, joined with no
separator. -/
def spec_transcript (response : RecognizeResponse) : String :=
  String.join (response.results.map
    (fun r => (r.alternatives.headD { transcript := "" }).transcript))

/-- Decimal re-reading of a little-endian digit list; inverse of
`digitsRev`, used to prove that timestamp names cannot collide. -/
def undigits : List Nat → Nat
  | [] => 0
  | d :: ds => d + 10 * undigits ds

/-! ### Concrete services used by the witnesses -/

/-- A response with one result segment whose first alternative is
`"hello"`. -/
def testResponse : RecognizeResponse :=
  ⟨[⟨[⟨"hello"⟩]⟩]⟩

/-- Oracles that always succeed, decoding to a stereo 44.1 kHz segment of
the given length in milliseconds. -/
def testServices (lenMs : Nat) : Services :=
  { from_file := fun _ => .ok ⟨2, 44100, lenMs⟩
    export_wav := fun _ _ => [82, 73, 70, 70]
    gcs_upload := fun _ _ _ => .ok ()
    recognize := fun _ _ => .ok testResponse
    long_running_recognize := fun _ _ => .ok ⟨fun _ => .ok testResponse⟩
    translate := fun _ _ _ => .ok "tamil-text"
    synthesize_speech := fun _ _ _ => .ok ⟨[1, 2, 3]⟩
    now := 1700000000 }

/-- A response with no result segments; it joins to the empty transcript. -/
def emptyResponse : RecognizeResponse := ⟨[]⟩

/-- Oracles that always succeed but recognize no speech: every recognition
response is `emptyResponse`. -/
def silentServices (lenMs : Nat) : Services :=
  { from_file := fun _ => .ok ⟨2, 44100, lenMs⟩
    export_wav := fun _ _ => [82, 73, 70, 70]
    gcs_upload := fun _ _ _ => .ok ()
    recognize := fun _ _ => .ok emptyResponse
    long_running_recognize := fun _ _ => .ok ⟨fun _ => .ok emptyResponse⟩
    translate := fun _ _ _ => .ok "tamil-text"
    synthesize_speech := fun _ _ _ => .ok ⟨[1, 2, 3]⟩
    now := 1700000000 }

/-- Oracles whose decoder raises, so the request body faults at once. -/
def failingServices : Services :=
  { from_file := fun _ => .error "decode boom"
    export_wav := fun _ _ => []
    gcs_upload := fun _ _ _ => .ok ()
    recognize := fun _ _ => .ok emptyResponse
    long_running_recognize := fun _ _ => .ok ⟨fun _ => .ok emptyResponse⟩
    translate := fun _ _ _ => .ok ""
    synthesize_speech := fun _ _ _ => .ok ⟨[]⟩
    now := 0 }

/-! ### Helper lemmas -/

theorem foldl_string_append (l : List String) :
    ∀ a b : String, l.foldl (fun r s => r ++ s) (a ++ b) =
      a ++ l.foldl (fun r s => r ++ s) b := by
  induction l with
  | nil => intro a b; rfl
  | cons x xs ih =>
    intro a b
    simp only [List.foldl]
    rw [String.append_assoc]
    exact ih a (b ++ x)

theorem string_join_cons (s : String) (l : List String) :
    String.join (s :: l) = s ++ String.join l := by
  show l.foldl (fun r s => r ++ s) ("" ++ s) = s ++ String.join l
  rw [String.empty_append]
  have h := foldl_string_append l s ""
  rw [String.append_empty] at h
  exact h

/-- Every event emitted by the post-transcription stage is a message, the
translation call (target `"ta"`, no source language, no timeout), or the
synthesis call (no timeout). -/
theorem mem_translate_and_synthesize_events {svc : Services}
    {response : RecognizeResponse} {e : Event}
    (he : e ∈ (translate_and_synthesize svc response).1) :
    (∃ m, e = .warning m) ∨ (∃ m, e = .write m) ∨
    (∃ t, e = .translateCall t (some "ta") none none) ∨
    (is_synthesize_call e = true ∧ timeout_of e = none) := by
  unfold translate_and_synthesize at he
  repeat' split at he
  all_goals simp_all [is_synthesize_call, timeout_of]
  all_goals aesop

/-- Every event of a short-path body trace is one of the three progress
messages, the inline `recognize` call on the normalized WAV bytes, or an
event of the post-transcription stage for the response `recognize`
returned. -/
theorem mem_process_body_short {svc : Services} {audio_bytes : Bytes}
    {source_lang_code : String} {seg : AudioSegment} {e : Event}
    (hdec : svc.from_file audio_bytes = .ok seg)
    (hdur : duration_seconds_of (normalize_segment seg) < 60)
    (he : e ∈ (process_body svc audio_bytes source_lang_code).1) :
    e = .write "1. Processing audio..." ∨
    e = .infoDuration (duration_seconds_of (normalize_segment seg)) ∨
    e = .write "2. Transcribing audio..." ∨
    e = .recognizeCall (short_config source_lang_code)
        (.content (svc.export_wav (normalize_segment seg) "wav")) none ∨
    (∃ response, svc.recognize (short_config source_lang_code)
        (.content (svc.export_wav (normalize_segment seg) "wav")) =
          .ok response ∧
      e ∈ (translate_and_synthesize svc response).1) := by
  simp only [process_body, hdec, if_pos hdur] at he
  split at he
  all_goals simp at he
  all_goals aesop

/-- The short path always emits its inline `recognize` call. -/
theorem recognizeCall_mem_process_body_short {svc : Services}
    {audio_bytes : Bytes} {source_lang_code : String} {seg : AudioSegment}
    (hdec : svc.from_file audio_bytes = .ok seg)
    (hdur : duration_seconds_of (normalize_segment seg) < 60) :
    Event.recognizeCall (short_config source_lang_code)
        (.content (svc.export_wav (normalize_segment seg) "wav")) none ∈
      (process_body svc audio_bytes source_lang_code).1 := by
  simp only [process_body, hdec, if_pos hdur]
  split
  all_goals simp

/-- Every event of a long-path body trace is one of the four progress
messages, the storage upload of the normalized WAV bytes under the
timestamped blob name, the URI-based long-running call, the
`operation.result(timeout=900)` poll, or an event of the
post-transcription stage. -/
theorem mem_process_body_long {svc : Services} {audio_bytes : Bytes}
    {source_lang_code : String} {seg : AudioSegment} {e : Event}
    (hdec : svc.from_file audio_bytes = .ok seg)
    (hdur : ¬ duration_seconds_of (normalize_segment seg) < 60)
    (he : e ∈ (process_body svc audio_bytes source_lang_code).1) :
    e = .write "1. Processing audio..." ∨
    e = .infoDuration (duration_seconds_of (normalize_segment seg)) ∨
    e = .write "2. Transcribing audio..." ∨
    e = .info "Long audio detected. Uploading to Cloud Storage..." ∨
    e = .uploadCall BUCKET_NAME (blob_name_at svc.now)
        (svc.export_wav (normalize_segment seg) "wav") none ∨
    e = .longRunningRecognizeCall (long_config source_lang_code)
        (.uri ("gs://" ++ BUCKET_NAME ++ "/" ++ blob_name_at svc.now)) none ∨
    e = .operationResultCall (some 900) ∨
    (∃ response, e ∈ (translate_and_synthesize svc response).1) := by
  simp only [process_body, upload_to_gcs, hdec, if_neg hdur] at he
  repeat' split at he
  all_goals simp at he
  all_goals aesop

/-- The long path always emits its storage upload call. -/
theorem uploadCall_mem_process_body_long {svc : Services}
    {audio_bytes : Bytes} {source_lang_code : String} {seg : AudioSegment}
    (hdec : svc.from_file audio_bytes = .ok seg)
    (hdur : ¬ duration_seconds_of (normalize_segment seg) < 60) :
    Event.uploadCall BUCKET_NAME (blob_name_at svc.now)
        (svc.export_wav (normalize_segment seg) "wav") none ∈
      (process_body svc audio_bytes source_lang_code).1 := by
  simp only [process_body, upload_to_gcs, hdec, if_neg hdur]
  repeat' split
  all_goals simp

/-- The wrapper keeps every body event. -/
theorem mem_trace_of_mem_body {svc : Services} {audio_bytes : Bytes}
    {source_lang_code : String} {e : Event}
    (he : e ∈ (process_body svc audio_bytes source_lang_code).1) :
    e ∈ (process_and_translate svc audio_bytes source_lang_code).1 := by
  unfold process_and_translate
  split
  all_goals rename_i heq
  · have : (process_body svc audio_bytes source_lang_code).1 = _ :=
      congrArg Prod.fst heq
    simp_all
  · have : (process_body svc audio_bytes source_lang_code).1 = _ :=
      congrArg Prod.fst heq
    simp_all

/-- Every wrapper-trace event is a body event or the broad-catch error
message. -/
theorem mem_body_or_errorMsg_of_mem_trace {svc : Services}
    {audio_bytes : Bytes} {source_lang_code : String} {e : Event}
    (he : e ∈ (process_and_translate svc audio_bytes source_lang_code).1) :
    e ∈ (process_body svc audio_bytes source_lang_code).1 ∨
    ∃ m, e = .errorMsg m := by
  unfold process_and_translate at he
  split at he
  all_goals rename_i heq
  · have : (process_body svc audio_bytes source_lang_code).1 = _ :=
      congrArg Prod.fst heq
    simp_all
  · have : (process_body svc audio_bytes source_lang_code).1 = _ :=
      congrArg Prod.fst heq
    simp_all
    rcases he with h | h
    · exact Or.inl h
    · exact Or.inr ⟨_, h⟩

/-- The post-transcription stage emits no long-path event. -/
theorem ts_not_long_path {svc : Services} {response : RecognizeResponse}
    {e : Event} (he : e ∈ (translate_and_synthesize svc response).1) :
    is_long_path_event e = false := by
  rcases mem_translate_and_synthesize_events he with
    ⟨m, rfl⟩ | ⟨m, rfl⟩ | ⟨t, rfl⟩ | ⟨hs, ht⟩
  · rfl
  · rfl
  · rfl
  · cases e <;> simp_all [is_synthesize_call, is_long_path_event]

/-- The post-transcription stage emits no inline recognize call. -/
theorem ts_not_recognize {svc : Services} {response : RecognizeResponse}
    {e : Event} (he : e ∈ (translate_and_synthesize svc response).1) :
    is_recognize_call e = false := by
  rcases mem_translate_and_synthesize_events he with
    ⟨m, rfl⟩ | ⟨m, rfl⟩ | ⟨t, rfl⟩ | ⟨hs, ht⟩
  · rfl
  · rfl
  · rfl
  · cases e <;> simp_all [is_synthesize_call, is_recognize_call]

/-- The post-transcription stage passes no explicit timeout. -/
theorem ts_timeout_none {svc : Services} {response : RecognizeResponse}
    {e : Event} (he : e ∈ (translate_and_synthesize svc response).1) :
    timeout_of e = none := by
  rcases mem_translate_and_synthesize_events he with
    ⟨m, rfl⟩ | ⟨m, rfl⟩ | ⟨t, rfl⟩ | ⟨hs, ht⟩
  · rfl
  · rfl
  · rfl
  · exact ht

/-- When decoding fails, the body run is just the first progress message
and the raised decode error. -/
theorem process_body_decode_error {svc : Services} {audio_bytes : Bytes}
    {source_lang_code : String} {msg : String}
    (h : svc.from_file audio_bytes = .error msg) :
    process_body svc audio_bytes source_lang_code =
      ([.write "1. Processing audio..."], .error msg) := by
  simp [process_body, h]

/-- The post-transcription stage emits no operation poll. -/
theorem ts_not_op_result {svc : Services} {response : RecognizeResponse}
    {e : Event} (he : e ∈ (translate_and_synthesize svc response).1) :
    is_op_result_call e = false := by
  rcases mem_translate_and_synthesize_events he with
    ⟨m, rfl⟩ | ⟨m, rfl⟩ | ⟨t, rfl⟩ | ⟨hs, ht⟩
  · rfl
  · rfl
  · rfl
  · cases e <;> simp_all [is_synthesize_call, is_op_result_call]

/-- `undigits` inverts `digitsRev`. -/
theorem undigits_digitsRev (n : Nat) : undigits (digitsRev n) = n := by
  induction n using Nat.strong_induction_on with
  | _ n ih =>
    rw [digitsRev]
    split
    · simp [undigits]
    · rename_i h
      rw [undigits]
      rw [ih (n / 10) (Nat.div_lt_self (by omega) (by omega))]
      omega

theorem digitsRev_injective : Function.Injective digitsRev := by
  intro a b h
  have h2 := congrArg undigits h
  rwa [undigits_digitsRev, undigits_digitsRev] at h2

theorem digitsRev_lt_ten (n : Nat) : ∀ d ∈ digitsRev n, d < 10 := by
  induction n using Nat.strong_induction_on with
  | _ n ih =>
    rw [digitsRev]
    split
    · rename_i h
      intro d hd
      rw [List.mem_singleton] at hd
      omega
    · rename_i h
      intro d hd
      rcases List.mem_cons.mp hd with rfl | hd2
      · omega
      · exact ih (n / 10) (Nat.div_lt_self (by omega) (by omega)) d hd2

theorem digitChar_inj_lt {a b : Nat} (ha : a < 10) (hb : b < 10)
    (h : digitChar a = digitChar b) : a = b := by
  interval_cases a <;> interval_cases b <;> revert h <;> decide

theorem map_digitChar_inj : ∀ l1 l2 : List Nat,
    (∀ d ∈ l1, d < 10) → (∀ d ∈ l2, d < 10) →
    l1.map digitChar = l2.map digitChar → l1 = l2 := by
  intro l1
  induction l1 with
  | nil =>
    intro l2 _ _ h
    cases l2 with
    | nil => rfl
    | cons b bs => simp at h
  | cons a as ih =>
    intro l2 h1 h2 h
    cases l2 with
    | nil => simp at h
    | cons b bs =>
      simp only [List.map_cons, List.cons.injEq] at h
      obtain ⟨hab, ht⟩ := h
      have hd : a = b := digitChar_inj_lt (h1 a (by simp)) (h2 b (by simp)) hab
      subst hd
      rw [ih bs (fun d hd2 => h1 d (by simp [hd2]))
        (fun d hd2 => h2 d (by simp [hd2])) ht]

theorem pyStrNat_injective : Function.Injective pyStrNat := by
  intro a b h
  have hdata : ((digitsRev a).reverse.map digitChar) =
      ((digitsRev b).reverse.map digitChar) := congrArg String.data h
  have hrev : (digitsRev a).reverse = (digitsRev b).reverse :=
    map_digitChar_inj _ _
      (fun d hd => digitsRev_lt_ten a d (List.mem_reverse.mp hd))
      (fun d hd => digitsRev_lt_ten b d (List.mem_reverse.mp hd)) hdata
  exact digitsRev_injective (List.reverse_injective hrev)

/-- Distinct Unix timestamps give distinct blob names. -/
theorem blob_name_at_injective : Function.Injective blob_name_at := by
  intro a b h
  have hdata := congrArg String.data h
  simp only [blob_name_at, String.data_append] at hdata
  have h1 := List.append_cancel_right hdata
  have h2 := List.append_cancel_left h1
  exact pyStrNat_injective (String.ext h2)

/-- A failed transcript join makes the post-transcription stage re-raise
with no events. -/
theorem ts_error {svc : Services} {response : RecognizeResponse} {m : String}
    (h : transcript_of_response response = .error m) :
    translate_and_synthesize svc response = ([], .error m) := by
  unfold translate_and_synthesize
  rw [h]

/-- An empty transcript makes the post-transcription stage warn and return
the `None` triple, with no further calls. -/
theorem ts_empty {svc : Services} {response : RecognizeResponse}
    (h : transcript_of_response response = .ok "") :
    translate_and_synthesize svc response =
      ([.warning "Could not recognize speech. Please try again."],
       .ok none) := by
  unfold translate_and_synthesize
  rw [h]
  exact rfl

/-- The short-path body run, given a successful inline recognition. -/
theorem process_body_short_eq {svc : Services} {audio_bytes : Bytes}
    {source_lang_code : String} {seg : AudioSegment}
    {r : RecognizeResponse}
    (hdec : svc.from_file audio_bytes = .ok seg)
    (hdur : duration_seconds_of (normalize_segment seg) < 60)
    (hr : svc.recognize (short_config source_lang_code)
      (.content (svc.export_wav (normalize_segment seg) "wav")) = .ok r) :
    process_body svc audio_bytes source_lang_code =
      ([.write "1. Processing audio...",
        .infoDuration (duration_seconds_of (normalize_segment seg)),
        .write "2. Transcribing audio...",
        .recognizeCall (short_config source_lang_code)
          (.content (svc.export_wav (normalize_segment seg) "wav")) none] ++
          (translate_and_synthesize svc r).1,
       (translate_and_synthesize svc r).2) := by
  simp [process_body, hdec, hdur, hr]

/-- The long-path body run, given successful staging, job submission and
poll. -/
theorem process_body_long_eq {svc : Services} {audio_bytes : Bytes}
    {source_lang_code : String} {seg : AudioSegment}
    {op : LongRunningOperation} {r : RecognizeResponse}
    (hdec : svc.from_file audio_bytes = .ok seg)
    (hdur : ¬ duration_seconds_of (normalize_segment seg) < 60)
    (hup : svc.gcs_upload BUCKET_NAME (blob_name_at svc.now)
      (svc.export_wav (normalize_segment seg) "wav") = .ok ())
    (hop : svc.long_running_recognize (long_config source_lang_code)
      (.uri ("gs://" ++ BUCKET_NAME ++ "/" ++ blob_name_at svc.now)) = .ok op)
    (hr : op.result 900 = .ok r) :
    process_body svc audio_bytes source_lang_code =
      ([.write "1. Processing audio...",
        .infoDuration (duration_seconds_of (normalize_segment seg)),
        .write "2. Transcribing audio...",
        .info "Long audio detected. Uploading to Cloud Storage...",
        .uploadCall BUCKET_NAME (blob_name_at svc.now)
          (svc.export_wav (normalize_segment seg) "wav") none,
        .longRunningRecognizeCall (long_config source_lang_code)
          (.uri ("gs://" ++ BUCKET_NAME ++ "/" ++ blob_name_at svc.now)) none,
        .operationResultCall (some 900)] ++
          (translate_and_synthesize svc r).1,
       (translate_and_synthesize svc r).2) := by
  simp [process_body, upload_to_gcs, hdec, hdur, hup, hop, hr]

/-! ### Claims -/

/-- C1: for every uploaded audio file that decodes, the branch is selected
solely by the duration the normalizer computes: strictly below 60 seconds,
the request trace contains the inline synchronous recognize call and no
long-path event (no storage upload, no long-running call, no operation
poll); at 60 seconds or above, the trace contains a long-path event and no
inline recognize call.  The handler is a function of its inputs, so the
selection is deterministic. -/
theorem duration_determines_branch (svc : Services) (audio_bytes : Bytes)
    (source_lang_code : String) (seg : AudioSegment)
    (hdec : svc.from_file audio_bytes = .ok seg) :
    (duration_seconds_of (normalize_segment seg) < 60 →
      (∃ e ∈ (process_and_translate svc audio_bytes source_lang_code).1,
        is_recognize_call e = true) ∧
      (∀ e ∈ (process_and_translate svc audio_bytes source_lang_code).1,
        is_long_path_event e = false)) ∧
    (60 ≤ duration_seconds_of (normalize_segment seg) →
      (∃ e ∈ (process_and_translate svc audio_bytes source_lang_code).1,
        is_long_path_event e = true) ∧
      (∀ e ∈ (process_and_translate svc audio_bytes source_lang_code).1,
        is_recognize_call e = false)) := by
  constructor
  · intro hdur
    refine ⟨⟨_, mem_trace_of_mem_body
      (recognizeCall_mem_process_body_short hdec hdur), rfl⟩, ?_⟩
    intro e he
    rcases mem_body_or_errorMsg_of_mem_trace he with h | ⟨m, rfl⟩
    · rcases mem_process_body_short hdec hdur h with
        rfl | rfl | rfl | rfl | ⟨r, _, hts⟩
      · rfl
      · rfl
      · rfl
      · rfl
      · exact ts_not_long_path hts
    · rfl
  · intro hdur
    have hdur' : ¬ duration_seconds_of (normalize_segment seg) < 60 :=
      not_lt.mpr hdur
    refine ⟨⟨_, mem_trace_of_mem_body
      (uploadCall_mem_process_body_long hdec hdur'), rfl⟩, ?_⟩
    intro e he
    rcases mem_body_or_errorMsg_of_mem_trace he with h | ⟨m, rfl⟩
    · rcases mem_process_body_long hdec hdur' h with
        rfl | rfl | rfl | rfl | rfl | rfl | rfl | ⟨r, hts⟩
      · rfl
      · rfl
      · rfl
      · rfl
      · rfl
      · rfl
      · rfl
      · exact ts_not_recognize hts
    · rfl

/-- Witness for C1: a 10-second decode takes the short path (an inline
recognize call appears) and a 90-second decode takes the long path (a
storage upload appears). -/
theorem duration_determines_branch_witness :
    (∃ e ∈ (process_and_translate (testServices 10000) [] "en-US").1,
      is_recognize_call e = true) ∧
    (∃ e ∈ (process_and_translate (testServices 90000) [] "en-US").1,
      is_long_path_event e = true) :=
  ⟨((duration_determines_branch (testServices 10000) [] "en-US"
      ⟨2, 44100, 10000⟩ rfl).1
    (by norm_num [duration_seconds_of, normalize_segment,
      AudioSegment.set_channels, AudioSegment.set_frame_rate])).1,
   ((duration_determines_branch (testServices 90000) [] "en-US"
      ⟨2, 44100, 90000⟩ rfl).2
    (by norm_num [duration_seconds_of, normalize_segment,
      AudioSegment.set_channels, AudioSegment.set_frame_rate])).1⟩

/-- C7: credential loading first tries the secret store key
`gcp_credentials`; only when it is absent does it fall back to the local
file `gcp-key.json`; when neither is available it stops with the fatal
message, and startup serves no request (`app_startup` yields no
credentials). -/
theorem credential_loading_order (env : Env) :
    (∀ j, env.secrets.lookup "gcp_credentials" = some j →
      load_gcp_credentials env = .ok (.from_service_account_info j)) ∧
    (env.secrets.lookup "gcp_credentials" = none →
      "gcp-key.json" ∈ env.files →
      load_gcp_credentials env = .ok (.from_service_account_file "gcp-key.json"
        ["https://www.googleapis.com/auth/cloud-platform"])) ∧
    (env.secrets.lookup "gcp_credentials" = none →
      "gcp-key.json" ∉ env.files →
      load_gcp_credentials env = .stopped credentials_missing_message ∧
      app_startup env = none) := by
  refine ⟨fun j hj => ?_, fun h1 h2 => ?_, fun h1 h2 => ?_⟩
  · simp [load_gcp_credentials, hj]
  · simp [load_gcp_credentials, h1, h2]
  · constructor
    · simp [load_gcp_credentials, h1, h2]
    · simp [app_startup, load_gcp_credentials, h1, h2]

/-- Witness for C7 at concrete environments: a populated secret store, a
store-less environment with the local file, and an empty environment. -/
theorem credential_loading_order_witness :
    load_gcp_credentials ⟨[("gcp_credentials", "key-json")], []⟩ =
      .ok (.from_service_account_info "key-json") ∧
    load_gcp_credentials ⟨[], ["gcp-key.json"]⟩ =
      .ok (.from_service_account_file "gcp-key.json"
        ["https://www.googleapis.com/auth/cloud-platform"]) ∧
    (load_gcp_credentials ⟨[], []⟩ = .stopped credentials_missing_message ∧
      app_startup ⟨[], []⟩ = none) :=
  ⟨(credential_loading_order ⟨[("gcp_credentials", "key-json")], []⟩).1
      "key-json" (by simp [List.lookup]),
   (credential_loading_order ⟨[], ["gcp-key.json"]⟩).2.1 (by simp [List.lookup])
      (by simp),
   (credential_loading_order ⟨[], []⟩).2.2 (by simp [List.lookup]) (by simp)⟩
/-- Every inline recognize call in a trace carries the short config. -/
theorem trace_recognize_config (svc : Services) (audio_bytes : Bytes)
    (source_lang_code : String) :
    ∀ cfg a t, Event.recognizeCall cfg a t ∈
        (process_and_translate svc audio_bytes source_lang_code).1 →
      cfg = short_config source_lang_code := by
  intro cfg a t h
  rcases mem_body_or_errorMsg_of_mem_trace h with h | ⟨m, hm⟩
  · cases hf : svc.from_file audio_bytes with
    | error msg => rw [process_body_decode_error hf] at h; simp at h
    | ok seg =>
      by_cases hdur : duration_seconds_of (normalize_segment seg) < 60
      · rcases mem_process_body_short hf hdur h with
          h1 | h1 | h1 | h1 | ⟨r, _, hts⟩
        · exact absurd h1 (by simp)
        · exact absurd h1 (by simp)
        · exact absurd h1 (by simp)
        · exact (Event.recognizeCall.inj h1).1
        · have := ts_not_recognize hts
          simp [is_recognize_call] at this
      · rcases mem_process_body_long hf hdur h with
          h1 | h1 | h1 | h1 | h1 | h1 | h1 | ⟨r, hts⟩
        · exact absurd h1 (by simp)
        · exact absurd h1 (by simp)
        · exact absurd h1 (by simp)
        · exact absurd h1 (by simp)
        · exact absurd h1 (by simp)
        · exact absurd h1 (by simp)
        · exact absurd h1 (by simp)
        · have := ts_not_recognize hts
          simp [is_recognize_call] at this
  · exact absurd hm (by simp)

/-- Every long-running call in a trace carries the long config. -/
theorem trace_long_running_config (svc : Services) (audio_bytes : Bytes)
    (source_lang_code : String) :
    ∀ cfg a t, Event.longRunningRecognizeCall cfg a t ∈
        (process_and_translate svc audio_bytes source_lang_code).1 →
      cfg = long_config source_lang_code := by
  intro cfg a t h
  rcases mem_body_or_errorMsg_of_mem_trace h with h | ⟨m, hm⟩
  · cases hf : svc.from_file audio_bytes with
    | error msg => rw [process_body_decode_error hf] at h; simp at h
    | ok seg =>
      by_cases hdur : duration_seconds_of (normalize_segment seg) < 60
      · rcases mem_process_body_short hf hdur h with
          h1 | h1 | h1 | h1 | ⟨r, _, hts⟩
        · exact absurd h1 (by simp)
        · exact absurd h1 (by simp)
        · exact absurd h1 (by simp)
        · exact absurd h1 (by simp)
        · have := ts_not_long_path hts
          simp [is_long_path_event] at this
      · rcases mem_process_body_long hf hdur h with
          h1 | h1 | h1 | h1 | h1 | h1 | h1 | ⟨r, hts⟩
        · exact absurd h1 (by simp)
        · exact absurd h1 (by simp)
        · exact absurd h1 (by simp)
        · exact absurd h1 (by simp)
        · exact absurd h1 (by simp)
        · exact (Event.longRunningRecognizeCall.inj h1).1
        · exact absurd h1 (by simp)
        · have := ts_not_long_path hts
          simp [is_long_path_event] at this
  · exact absurd hm (by simp)

/-- C10: the two branches are configured differently: the long path's
config requests automatic punctuation while the short path's does not, and
the two configs agree on encoding, sample rate and language code, so the
only configuration difference besides inline-versus-URI submission is the
punctuation flag.  Every inline recognize call in any trace carries the
short config and every long-running call carries the long config. -/
theorem branch_configs_differ (svc : Services) (audio_bytes : Bytes)
    (source_lang_code : String) :
    (short_config source_lang_code).enable_automatic_punctuation = false ∧
    (long_config source_lang_code).enable_automatic_punctuation = true ∧
    short_config source_lang_code ≠ long_config source_lang_code ∧
    (short_config source_lang_code).encoding =
      (long_config source_lang_code).encoding ∧
    (short_config source_lang_code).sample_rate_hertz =
      (long_config source_lang_code).sample_rate_hertz ∧
    (short_config source_lang_code).language_code =
      (long_config source_lang_code).language_code ∧
    (∀ cfg a t, Event.recognizeCall cfg a t ∈
        (process_and_translate svc audio_bytes source_lang_code).1 →
      cfg = short_config source_lang_code) ∧
    (∀ cfg a t, Event.longRunningRecognizeCall cfg a t ∈
        (process_and_translate svc audio_bytes source_lang_code).1 →
      cfg = long_config source_lang_code) :=
  ⟨rfl, rfl, by simp [short_config, long_config], rfl, rfl, rfl,
   trace_recognize_config svc audio_bytes source_lang_code,
   trace_long_running_config svc audio_bytes source_lang_code⟩

/-- Witness for C10: on a concrete 10-second run the inline recognize call
is present, and its config is the short config. -/
theorem branch_configs_differ_witness :
    Event.recognizeCall (short_config "en-US")
        (.content ((testServices 10000).export_wav
          (normalize_segment ⟨2, 44100, 10000⟩) "wav")) none ∈
      (process_and_translate (testServices 10000) [] "en-US").1 ∧
    short_config "en-US" = short_config "en-US" :=
  have hmem : Event.recognizeCall (short_config "en-US")
      (.content ((testServices 10000).export_wav
        (normalize_segment ⟨2, 44100, 10000⟩) "wav")) none ∈
      (process_and_translate (testServices 10000) [] "en-US").1 :=
    mem_trace_of_mem_body (recognizeCall_mem_process_body_short rfl
      (by norm_num [duration_seconds_of, normalize_segment,
        AudioSegment.set_channels, AudioSegment.set_frame_rate]))
  ⟨hmem, (branch_configs_differ (testServices 10000) [] "en-US").2.2.2.2.2.2.1
    (short_config "en-US") _ none hmem⟩

/-- C9: on any request, every explicit timeout in the trace belongs to the
long-running operation poll and equals 900 seconds, and the operation poll,
when present, always carries exactly the 900-second ceiling; every other
call event carries no explicit timeout. -/
theorem only_operation_poll_has_timeout (svc : Services) (audio_bytes : Bytes)
    (source_lang_code : String) :
    ∀ e ∈ (process_and_translate svc audio_bytes source_lang_code).1,
      (∀ n, timeout_of e = some n → is_op_result_call e = true ∧ n = 900) ∧
      (is_op_result_call e = true → timeout_of e = some 900) := by
  intro e he
  rcases mem_body_or_errorMsg_of_mem_trace he with h | ⟨m, rfl⟩
  · cases hf : svc.from_file audio_bytes with
    | error msg =>
      rw [process_body_decode_error hf] at h
      simp at h
      subst h
      simp [timeout_of, is_op_result_call]
    | ok seg =>
      by_cases hdur : duration_seconds_of (normalize_segment seg) < 60
      · rcases mem_process_body_short hf hdur h with
          rfl | rfl | rfl | rfl | ⟨r, _, hts⟩
        · simp [timeout_of, is_op_result_call]
        · simp [timeout_of, is_op_result_call]
        · simp [timeout_of, is_op_result_call]
        · simp [timeout_of, is_op_result_call]
        · have h1 := ts_timeout_none hts
          have h2 := ts_not_op_result hts
          rw [h1, h2]
          simp
      · rcases mem_process_body_long hf hdur h with
          rfl | rfl | rfl | rfl | rfl | rfl | rfl | ⟨r, hts⟩
        · simp [timeout_of, is_op_result_call]
        · simp [timeout_of, is_op_result_call]
        · simp [timeout_of, is_op_result_call]
        · simp [timeout_of, is_op_result_call]
        · simp [timeout_of, is_op_result_call]
        · simp [timeout_of, is_op_result_call]
        · simp [timeout_of, is_op_result_call]
        · have h1 := ts_timeout_none hts
          have h2 := ts_not_op_result hts
          rw [h1, h2]
          simp
  · simp [timeout_of, is_op_result_call]

/-- Witness for C9: on a concrete 90-second run the operation poll event is
present and carries the 900-second ceiling. -/
theorem only_operation_poll_has_timeout_witness :
    Event.operationResultCall (some 900) ∈
      (process_and_translate (testServices 90000) [] "hi-IN").1 ∧
    timeout_of (Event.operationResultCall (some 900)) = some 900 :=
  have hmem : Event.operationResultCall (some 900) ∈
      (process_and_translate (testServices 90000) [] "hi-IN").1 := by
    norm_num [process_and_translate, process_body, testServices,
      upload_to_gcs, normalize_segment, AudioSegment.set_channels,
      AudioSegment.set_frame_rate, duration_seconds_of,
      translate_and_synthesize, transcript_of_response, testResponse,
      String.join, List.mapM.loop, List.foldl]
    simp +decide
  ⟨hmem, (only_operation_poll_has_timeout (testServices 90000) [] "hi-IN"
    (Event.operationResultCall (some 900)) hmem).2 rfl⟩

/-- C5: whenever the upload decodes, the normalized segment is mono
(1 channel) at 16000 Hz, and the audio bytes handed to transcription are
exactly the normalizer's WAV re-encoding of that segment: every inline
recognize call carries them as its content, and every storage upload (the
long path's staging for the URI-based call) uploads them. -/
theorem normalized_audio_mono_16k (svc : Services) (audio_bytes : Bytes)
    (source_lang_code : String) (seg : AudioSegment)
    (hdec : svc.from_file audio_bytes = .ok seg) :
    (normalize_segment seg).channels = 1 ∧
    (normalize_segment seg).frameRate = 16000 ∧
    (∀ cfg a t, Event.recognizeCall cfg a t ∈
        (process_and_translate svc audio_bytes source_lang_code).1 →
      a = .content (svc.export_wav (normalize_segment seg) "wav")) ∧
    (∀ b n c t, Event.uploadCall b n c t ∈
        (process_and_translate svc audio_bytes source_lang_code).1 →
      c = svc.export_wav (normalize_segment seg) "wav") := by
  refine ⟨rfl, rfl, ?_, ?_⟩
  · intro cfg a t h
    rcases mem_body_or_errorMsg_of_mem_trace h with h | ⟨m, hm⟩
    · by_cases hdur : duration_seconds_of (normalize_segment seg) < 60
      · rcases mem_process_body_short hdec hdur h with
          h1 | h1 | h1 | h1 | ⟨r, _, hts⟩
        · exact absurd h1 (by simp)
        · exact absurd h1 (by simp)
        · exact absurd h1 (by simp)
        · exact (Event.recognizeCall.inj h1).2.1
        · have := ts_not_recognize hts
          simp [is_recognize_call] at this
      · rcases mem_process_body_long hdec hdur h with
          h1 | h1 | h1 | h1 | h1 | h1 | h1 | ⟨r, hts⟩
        · exact absurd h1 (by simp)
        · exact absurd h1 (by simp)
        · exact absurd h1 (by simp)
        · exact absurd h1 (by simp)
        · exact absurd h1 (by simp)
        · exact absurd h1 (by simp)
        · exact absurd h1 (by simp)
        · have := ts_not_recognize hts
          simp [is_recognize_call] at this
    · exact absurd hm (by simp)
  · intro b n c t h
    rcases mem_body_or_errorMsg_of_mem_trace h with h | ⟨m, hm⟩
    · by_cases hdur : duration_seconds_of (normalize_segment seg) < 60
      · rcases mem_process_body_short hdec hdur h with
          h1 | h1 | h1 | h1 | ⟨r, _, hts⟩
        · exact absurd h1 (by simp)
        · exact absurd h1 (by simp)
        · exact absurd h1 (by simp)
        · exact absurd h1 (by simp)
        · have := ts_not_long_path hts
          simp [is_long_path_event] at this
      · rcases mem_process_body_long hdec hdur h with
          h1 | h1 | h1 | h1 | h1 | h1 | h1 | ⟨r, hts⟩
        · exact absurd h1 (by simp)
        · exact absurd h1 (by simp)
        · exact absurd h1 (by simp)
        · exact absurd h1 (by simp)
        · exact (Event.uploadCall.inj h1).2.2.1
        · exact absurd h1 (by simp)
        · exact absurd h1 (by simp)
        · have := ts_not_long_path hts
          simp [is_long_path_event] at this
    · exact absurd hm (by simp)

/-- Witness for C5: the concrete 10-second run decodes, its inline
recognize call is in the trace, and its content is the normalized WAV
bytes. -/
theorem normalized_audio_mono_16k_witness :
    (testServices 10000).from_file [] = .ok ⟨2, 44100, 10000⟩ ∧
    RecognitionAudio.content ((testServices 10000).export_wav
        (normalize_segment ⟨2, 44100, 10000⟩) "wav") =
      .content ((testServices 10000).export_wav
        (normalize_segment ⟨2, 44100, 10000⟩) "wav") :=
  have hmem : Event.recognizeCall (short_config "en-US")
      (.content ((testServices 10000).export_wav
        (normalize_segment ⟨2, 44100, 10000⟩) "wav")) none ∈
      (process_and_translate (testServices 10000) [] "en-US").1 :=
    mem_trace_of_mem_body (recognizeCall_mem_process_body_short rfl
      (by norm_num [duration_seconds_of, normalize_segment,
        AudioSegment.set_channels, AudioSegment.set_frame_rate]))
  ⟨rfl, (normalized_audio_mono_16k (testServices 10000) [] "en-US"
    ⟨2, 44100, 10000⟩ rfl).2.2.1 (short_config "en-US") _ none hmem⟩

/-- C8: on the long path every storage write goes to the fixed bucket under
the blob name `audio-uploads/temp-<unix-timestamp>.wav` built from the
current Unix time, the long-running call receives the corresponding
`gs://<bucket>/<name>` reference, the stager returns exactly that reference
on success, and the timestamp-based naming is collision-free across
distinct timestamps. -/
theorem long_path_blob_naming (svc : Services) (audio_bytes : Bytes)
    (source_lang_code : String) (seg : AudioSegment)
    (hdec : svc.from_file audio_bytes = .ok seg)
    (hdur : 60 ≤ duration_seconds_of (normalize_segment seg)) :
    (∀ b n c t, Event.uploadCall b n c t ∈
        (process_and_translate svc audio_bytes source_lang_code).1 →
      b = BUCKET_NAME ∧
      n = "audio-uploads/temp-" ++ pyStrNat svc.now ++ ".wav") ∧
    (∀ cfg a t, Event.longRunningRecognizeCall cfg a t ∈
        (process_and_translate svc audio_bytes source_lang_code).1 →
      a = .uri ("gs://" ++ BUCKET_NAME ++ "/" ++ blob_name_at svc.now)) ∧
    (∀ content name u, (upload_to_gcs svc content name).2 = .ok u →
      u = "gs://" ++ BUCKET_NAME ++ "/" ++ name) ∧
    Function.Injective blob_name_at := by
  have hdur' : ¬ duration_seconds_of (normalize_segment seg) < 60 :=
    not_lt.mpr hdur
  refine ⟨?_, ?_, ?_, blob_name_at_injective⟩
  · intro b n c t h
    rcases mem_body_or_errorMsg_of_mem_trace h with h | ⟨m, hm⟩
    · rcases mem_process_body_long hdec hdur' h with
        h1 | h1 | h1 | h1 | h1 | h1 | h1 | ⟨r, hts⟩
      · exact absurd h1 (by simp)
      · exact absurd h1 (by simp)
      · exact absurd h1 (by simp)
      · exact absurd h1 (by simp)
      · obtain ⟨hb, hn, _⟩ := Event.uploadCall.inj h1
        exact ⟨hb, by rw [hn]; rfl⟩
      · exact absurd h1 (by simp)
      · exact absurd h1 (by simp)
      · have := ts_not_long_path hts
        simp [is_long_path_event] at this
    · exact absurd hm (by simp)
  · intro cfg a t h
    rcases mem_body_or_errorMsg_of_mem_trace h with h | ⟨m, hm⟩
    · rcases mem_process_body_long hdec hdur' h with
        h1 | h1 | h1 | h1 | h1 | h1 | h1 | ⟨r, hts⟩
      · exact absurd h1 (by simp)
      · exact absurd h1 (by simp)
      · exact absurd h1 (by simp)
      · exact absurd h1 (by simp)
      · exact absurd h1 (by simp)
      · exact (Event.longRunningRecognizeCall.inj h1).2.1
      · exact absurd h1 (by simp)
      · have := ts_not_long_path hts
        simp [is_long_path_event] at this
    · exact absurd hm (by simp)
  · intro content name u h
    unfold upload_to_gcs at h
    split at h
    · cases h
    · exact (Except.ok.inj h).symm

/-- Witness for C8: the concrete 90-second run decodes to a segment of 90
seconds, its staging upload is in the trace, and the claim's conclusions
hold at it. -/
theorem long_path_blob_naming_witness :
    Event.uploadCall BUCKET_NAME (blob_name_at (testServices 90000).now)
        ((testServices 90000).export_wav
          (normalize_segment ⟨2, 44100, 90000⟩) "wav") none ∈
      (process_and_translate (testServices 90000) [] "hi-IN").1 ∧
    (BUCKET_NAME = BUCKET_NAME ∧
      blob_name_at (testServices 90000).now =
        "audio-uploads/temp-" ++ pyStrNat (testServices 90000).now ++ ".wav") :=
  have hmem : Event.uploadCall BUCKET_NAME (blob_name_at (testServices 90000).now)
      ((testServices 90000).export_wav
        (normalize_segment ⟨2, 44100, 90000⟩) "wav") none ∈
      (process_and_translate (testServices 90000) [] "hi-IN").1 :=
    mem_trace_of_mem_body (uploadCall_mem_process_body_long rfl
      (by norm_num [duration_seconds_of, normalize_segment,
        AudioSegment.set_channels, AudioSegment.set_frame_rate]))
  ⟨hmem, (long_path_blob_naming (testServices 90000) [] "hi-IN"
      ⟨2, 44100, 90000⟩ rfl
      (by norm_num [duration_seconds_of, normalize_segment,
        AudioSegment.set_channels, AudioSegment.set_frame_rate])).1
    BUCKET_NAME (blob_name_at (testServices 90000).now) _ none hmem⟩

/-- When every result segment has at least one alternative, taking `head?`
of each succeeds and yields the heads in order. -/
theorem mapM_head_of_nonempty (l : List SpeechRecognitionResult)
    (h : ∀ r ∈ l, r.alternatives ≠ []) :
    l.mapM (fun r => r.alternatives.head?) =
      some (l.map (fun r => r.alternatives.headD { transcript := "" })) := by
  induction l with
  | nil => rfl
  | cons a as ih =>
    have ha : a.alternatives ≠ [] := h a (by simp)
    cases halt : a.alternatives with
    | nil => exact absurd halt ha
    | cons x xs =>
      rw [List.mapM_cons]
      simp only [halt, List.head?_cons, List.headD_cons, List.map_cons]
      rw [ih (fun r hr => h r (by simp [hr]))]
      rfl

/-- C4: on every transcription response in which each result segment has at
least one alternative, the joined transcript (the expression shared by both
branches) is the concatenation, in service order and with no separator, of
the first alternative's transcript of each segment; and any successful
outcome of the post-transcription stage returns exactly that string as the
transcript. -/
theorem transcript_concatenation (response : RecognizeResponse)
    (h : ∀ r ∈ response.results, r.alternatives ≠ []) :
    transcript_of_response response = .ok (spec_transcript response) ∧
    (∀ svc ev tr tl a,
      translate_and_synthesize svc response = (ev, .ok (some (tr, tl, a))) →
      tr = spec_transcript response) := by
  have h1 : transcript_of_response response = .ok (spec_transcript response) := by
    unfold transcript_of_response spec_transcript
    rw [mapM_head_of_nonempty response.results h]
    simp [List.map_map]
    rfl
  refine ⟨h1, ?_⟩
  intro svc ev tr tl a heq
  unfold translate_and_synthesize at heq
  rw [h1] at heq
  simp only [] at heq
  split at heq
  · simp at heq
  · split at heq
    · simp at heq
    · split at heq
      · simp at heq
      · simp [Prod.ext_iff] at heq
        exact heq.2.1.symm

/-- Witness for C4: the one-segment response whose first alternative is
`"hello"` satisfies the nonemptiness hypothesis, and the concrete
successful run returns `"hello"`, the spec-side concatenation. -/
theorem transcript_concatenation_witness :
    (∀ r ∈ testResponse.results, r.alternatives ≠ []) ∧
    "hello" = spec_transcript testResponse :=
  ⟨by decide,
   (transcript_concatenation testResponse (by decide)).2 (testServices 10000)
     [.write "3. Translating and synthesizing speech...",
      .translateCall "hello" (some "ta") none none,
      .synthesizeCall ⟨"tamil-text"⟩ ⟨"ta-IN", .NEUTRAL⟩ ⟨.MP3⟩ none]
     "hello" "tamil-text" [1, 2, 3] rfl⟩

/-- C2: when the upload decodes and every recognition outcome joins to the
empty transcript (while storage and the recognition calls themselves
succeed), the request ends gracefully: the result is the `None` triple, the
"could not recognize speech" warning is shown, and no translation or
synthesis call appears in the trace.  Moreover, in general, the
post-transcription stage makes a translation call only when the joined
transcript is non-empty. -/
theorem empty_transcript_short_circuits (svc : Services) (audio_bytes : Bytes)
    (source_lang_code : String) (seg : AudioSegment)
    (hdec : svc.from_file audio_bytes = .ok seg)
    (hupload : ∀ b n c, svc.gcs_upload b n c = .ok ())
    (hshort : ∀ cfg a, ∃ r, svc.recognize cfg a = .ok r ∧
      transcript_of_response r = .ok "")
    (hlong : ∀ cfg a, ∃ op, svc.long_running_recognize cfg a = .ok op ∧
      ∀ n, ∃ r, op.result n = .ok r ∧ transcript_of_response r = .ok "") :
    (process_and_translate svc audio_bytes source_lang_code).2 = none ∧
    Event.warning "Could not recognize speech. Please try again." ∈
      (process_and_translate svc audio_bytes source_lang_code).1 ∧
    (∀ e ∈ (process_and_translate svc audio_bytes source_lang_code).1,
      is_translate_call e = false ∧ is_synthesize_call e = false) ∧
    (∀ (svc2 : Services) (r2 : RecognizeResponse),
      (∃ e ∈ (translate_and_synthesize svc2 r2).1,
        is_translate_call e = true) →
      ∃ tr, transcript_of_response r2 = .ok tr ∧ tr ≠ "") := by
  have honly : ∀ (svc2 : Services) (r2 : RecognizeResponse),
      (∃ e ∈ (translate_and_synthesize svc2 r2).1,
        is_translate_call e = true) →
      ∃ tr, transcript_of_response r2 = .ok tr ∧ tr ≠ "" := by
    intro svc2 r2 ⟨e, he, hte⟩
    cases htr : transcript_of_response r2 with
    | error m =>
      rw [ts_error htr] at he
      simp at he
    | ok tr =>
      by_cases htr0 : tr = ""
      · subst htr0
        rw [ts_empty htr] at he
        simp at he
        subst he
        simp [is_translate_call] at hte
      · exact ⟨tr, rfl, htr0⟩
  by_cases hdur : duration_seconds_of (normalize_segment seg) < 60
  · obtain ⟨r, hr, hemp⟩ := hshort (short_config source_lang_code)
      (.content (svc.export_wav (normalize_segment seg) "wav"))
    have hb := process_body_short_eq hdec hdur hr
    rw [ts_empty hemp] at hb
    have hp : process_and_translate svc audio_bytes source_lang_code =
        ([.write "1. Processing audio...",
          .infoDuration (duration_seconds_of (normalize_segment seg)),
          .write "2. Transcribing audio...",
          .recognizeCall (short_config source_lang_code)
            (.content (svc.export_wav (normalize_segment seg) "wav")) none,
          .warning "Could not recognize speech. Please try again."],
         none) := by
      simp [process_and_translate, hb]
    refine ⟨by rw [hp], by rw [hp]; simp, ?_, honly⟩
    intro e he
    rw [hp] at he
    simp at he
    rcases he with rfl | rfl | rfl | rfl | rfl
    · exact ⟨rfl, rfl⟩
    · exact ⟨rfl, rfl⟩
    · exact ⟨rfl, rfl⟩
    · exact ⟨rfl, rfl⟩
    · exact ⟨rfl, rfl⟩
  · obtain ⟨op, hop, hpoll⟩ := hlong (long_config source_lang_code)
      (.uri ("gs://" ++ BUCKET_NAME ++ "/" ++ blob_name_at svc.now))
    obtain ⟨r, hr, hemp⟩ := hpoll 900
    have hb := process_body_long_eq hdec hdur
      (hupload BUCKET_NAME (blob_name_at svc.now)
        (svc.export_wav (normalize_segment seg) "wav")) hop hr
    rw [ts_empty hemp] at hb
    have hp : process_and_translate svc audio_bytes source_lang_code =
        ([.write "1. Processing audio...",
          .infoDuration (duration_seconds_of (normalize_segment seg)),
          .write "2. Transcribing audio...",
          .info "Long audio detected. Uploading to Cloud Storage...",
          .uploadCall BUCKET_NAME (blob_name_at svc.now)
            (svc.export_wav (normalize_segment seg) "wav") none,
          .longRunningRecognizeCall (long_config source_lang_code)
            (.uri ("gs://" ++ BUCKET_NAME ++ "/" ++ blob_name_at svc.now)) none,
          .operationResultCall (some 900),
          .warning "Could not recognize speech. Please try again."],
         none) := by
      simp [process_and_translate, hb]
    refine ⟨by rw [hp], by rw [hp]; simp, ?_, honly⟩
    intro e he
    rw [hp] at he
    simp at he
    rcases he with rfl | rfl | rfl | rfl | rfl | rfl | rfl | rfl
    · exact ⟨rfl, rfl⟩
    · exact ⟨rfl, rfl⟩
    · exact ⟨rfl, rfl⟩
    · exact ⟨rfl, rfl⟩
    · exact ⟨rfl, rfl⟩
    · exact ⟨rfl, rfl⟩
    · exact ⟨rfl, rfl⟩
    · exact ⟨rfl, rfl⟩

/-- Witness for C2: the silent 10-second run satisfies every hypothesis and
ends with the `None` triple and the warning shown. -/
theorem empty_transcript_short_circuits_witness :
    (process_and_translate (silentServices 10000) [] "en-US").2 = none ∧
    Event.warning "Could not recognize speech. Please try again." ∈
      (process_and_translate (silentServices 10000) [] "en-US").1 :=
  have h := empty_transcript_short_circuits (silentServices 10000) []
    "en-US" ⟨2, 44100, 10000⟩ rfl (fun _ _ _ => rfl)
    (fun _ _ => ⟨emptyResponse, rfl, rfl⟩)
    (fun _ _ => ⟨⟨fun _ => .ok emptyResponse⟩, rfl,
      fun _ => ⟨emptyResponse, rfl, rfl⟩⟩)
  ⟨h.1, h.2.1⟩

/-- C6: every fault raised inside the request body (any failing service
call: decode, storage, transcription, translation or synthesis) is caught
at the request level: the trace gains the user-visible error message whose
text embeds the underlying fault text, the request returns the `None`
triple (no transcript, no translation, no synthesized audio), and the UI
renders no partial result. -/
theorem service_fault_caught (svc : Services) (audio_bytes : Bytes)
    (source_lang_code : String) (ev : List Event) (m : String)
    (hfault : process_body svc audio_bytes source_lang_code =
      (ev, .error m)) :
    process_and_translate svc audio_bytes source_lang_code =
      (ev ++ [.errorMsg ("An error occurred during processing: " ++ m)],
       none) ∧
    render_results
      (process_and_translate svc audio_bytes source_lang_code).2 = none := by
  have h1 : process_and_translate svc audio_bytes source_lang_code =
      (ev ++ [.errorMsg ("An error occurred during processing: " ++ m)],
       none) := by
    unfold process_and_translate
    rw [hfault]
  exact ⟨h1, by rw [h1]; rfl⟩

/-- Witness for C6: a decoder fault on a concrete run is caught, surfaced
with its text, and nothing is rendered. -/
theorem service_fault_caught_witness :
    process_and_translate failingServices [] "en-US" =
      ([.write "1. Processing audio...",
        .errorMsg ("An error occurred during processing: " ++ "decode boom")],
       none) ∧
    render_results (process_and_translate failingServices [] "en-US").2 =
      none :=
  service_fault_caught failingServices [] "en-US"
    [.write "1. Processing audio..."] "decode boom" rfl

/-- C3 as stated is false on the code: on a concrete run with the UI
selection English (locale `"en-US"`), the translation call that occurs
carries the transcript and `target_language="ta"` but no source language
(the `source_language` keyword stays at its `None` default), and no
translation call carrying the caller's `"en-US"` occurs. -/
theorem translation_source_language_cex :
    input_lang_options.lookup "English" = some "en-US" ∧
    Event.translateCall "hello" (some "ta") none none ∈
      (process_and_translate (testServices 10000) [] "en-US").1 ∧
    Event.translateCall "hello" (some "ta") (some "en-US") none ∉
      (process_and_translate (testServices 10000) [] "en-US").1 ∧
    (none : Option String) ≠ some "en-US" := by
  refine ⟨rfl, ?_, ?_, by simp⟩
  · norm_num [process_and_translate, process_body, testServices,
      normalize_segment, AudioSegment.set_channels,
      AudioSegment.set_frame_rate, duration_seconds_of,
      translate_and_synthesize, transcript_of_response, testResponse,
      String.join, List.mapM.loop, List.foldl]
    simp +decide
  · norm_num [process_and_translate, process_body, testServices,
      normalize_segment, AudioSegment.set_channels,
      AudioSegment.set_frame_rate, duration_seconds_of,
      translate_and_synthesize, transcript_of_response, testResponse,
      String.join, List.mapM.loop, List.foldl]
    simp +decide

/-- C3 amended: the Translation Invoker receives only the transcript and
the fixed target language code `"ta"`; the caller-selected source language
is not passed to translation (the `source_language` keyword is left at its
`None` default, so the service auto-detects), and it is supplied as caller
metadata only to the recognition configs of both transcription branches as
their `language_code`. -/
theorem translation_args_amended (svc : Services) (audio_bytes : Bytes)
    (source_lang_code : String) :
    (∀ e ∈ (process_and_translate svc audio_bytes source_lang_code).1,
      is_translate_call e = true →
      ∃ txt, e = .translateCall txt (some "ta") none none) ∧
    (∀ cfg a t, Event.recognizeCall cfg a t ∈
        (process_and_translate svc audio_bytes source_lang_code).1 →
      cfg.language_code = source_lang_code) ∧
    (∀ cfg a t, Event.longRunningRecognizeCall cfg a t ∈
        (process_and_translate svc audio_bytes source_lang_code).1 →
      cfg.language_code = source_lang_code) := by
  refine ⟨?_, ?_, ?_⟩
  · intro e he hte
    rcases mem_body_or_errorMsg_of_mem_trace he with h | ⟨m, rfl⟩
    · cases hf : svc.from_file audio_bytes with
      | error msg =>
        rw [process_body_decode_error hf] at h
        simp at h
        subst h
        simp [is_translate_call] at hte
      | ok seg =>
        by_cases hdur : duration_seconds_of (normalize_segment seg) < 60
        · rcases mem_process_body_short hf hdur h with
            rfl | rfl | rfl | rfl | ⟨r, _, hts⟩
          · simp [is_translate_call] at hte
          · simp [is_translate_call] at hte
          · simp [is_translate_call] at hte
          · simp [is_translate_call] at hte
          · rcases mem_translate_and_synthesize_events hts with
              ⟨m, rfl⟩ | ⟨m, rfl⟩ | ⟨txt, rfl⟩ | ⟨hs, _⟩
            · simp [is_translate_call] at hte
            · simp [is_translate_call] at hte
            · exact ⟨txt, rfl⟩
            · cases e <;> simp_all [is_synthesize_call, is_translate_call]
        · rcases mem_process_body_long hf hdur h with
            rfl | rfl | rfl | rfl | rfl | rfl | rfl | ⟨r, hts⟩
          · simp [is_translate_call] at hte
          · simp [is_translate_call] at hte
          · simp [is_translate_call] at hte
          · simp [is_translate_call] at hte
          · simp [is_translate_call] at hte
          · simp [is_translate_call] at hte
          · simp [is_translate_call] at hte
          · rcases mem_translate_and_synthesize_events hts with
              ⟨m, rfl⟩ | ⟨m, rfl⟩ | ⟨txt, rfl⟩ | ⟨hs, _⟩
            · simp [is_translate_call] at hte
            · simp [is_translate_call] at hte
            · exact ⟨txt, rfl⟩
            · cases e <;> simp_all [is_synthesize_call, is_translate_call]
    · simp [is_translate_call] at hte
  · intro cfg a t h
    rw [trace_recognize_config svc audio_bytes source_lang_code cfg a t h]
    rfl
  · intro cfg a t h
    rw [trace_long_running_config svc audio_bytes source_lang_code cfg a t h]
    rfl

/-- Witness for the amended C3: the concrete run's translation call is in
the trace, and the theorem yields its argument shape. -/
theorem translation_args_amended_witness :
    Event.translateCall "hello" (some "ta") none none ∈
      (process_and_translate (testServices 10000) [] "en-US").1 ∧
    ∃ txt, Event.translateCall "hello" (some "ta") none none =
      Event.translateCall txt (some "ta") none none :=
  have hmem : Event.translateCall "hello" (some "ta") none none ∈
      (process_and_translate (testServices 10000) [] "en-US").1 := by
    norm_num [process_and_translate, process_body, testServices,
      normalize_segment, AudioSegment.set_channels,
      AudioSegment.set_frame_rate, duration_seconds_of,
      translate_and_synthesize, transcript_of_response, testResponse,
      String.join, List.mapM.loop, List.foldl]
    simp +decide
  ⟨hmem, (translation_args_amended (testServices 10000) [] "en-US").1
    (Event.translateCall "hello" (some "ta") none none) hmem rfl⟩

end TamilTranslator
